import Mathlib

/-!
Verification development for the CHIMERA_VPU adaptive compute dispatcher.

The C++ sources under src/ are embedded shallowly: `std::map<std::string,double>`
belief stores become association lists over `ℚ` (the double arithmetic of the
claims is exact), kernels become Lean functions threading the task record, and
the per-task cognitive loop (`VPUCore::execute_task`) becomes a pure state
transformer.  Machine-level facts that the embedding cannot see (byte-level
Hamming weights of IEEE-754 buffers, the FFTW spectrum, wall-clock timing,
the RNG draw) enter as explicit parameters.
-/

namespace VPU

/-- Association-list lookup keyed by a decidable type, modelling
`std::map::count`/`std::map::at` pairs: the first binding for a key wins. -/
def lookA {κ β : Type} [DecidableEq κ] : List (κ × β) → κ → Option β
  | [], _ => none
  | (k', v) :: rest, k => if k = k' then some v else lookA rest k

/-- Association-list write, modelling `map[k] = v` / `map.at(k) = v`:
replaces the first binding when present, appends otherwise. -/
def setA {κ β : Type} [DecidableEq κ] : List (κ × β) → κ → β → List (κ × β)
  | [], k, v => [(k, v)]
  | (k', v') :: rest, k, v =>
    if k' = k then (k, v) :: rest else (k', v') :: setA rest k v

theorem lookA_setA_self {κ β : Type} [DecidableEq κ] (m : List (κ × β)) (k : κ) (v : β) :
    lookA (setA m k v) k = some v := by
  induction m with
  | nil => simp [setA, lookA]
  | cons hd tl ih =>
    obtain ⟨k', v'⟩ := hd
    by_cases h : k' = k
    · simp [setA, h, lookA]
    · simp [setA, h, lookA, Ne.symm h, ih]

theorem lookA_setA_ne {κ β : Type} [DecidableEq κ] (m : List (κ × β)) (k k' : κ) (v : β)
    (h : k' ≠ k) : lookA (setA m k v) k' = lookA m k' := by
  induction m with
  | nil => simp [setA, lookA, h]
  | cons hd tl ih =>
    obtain ⟨k0, v0⟩ := hd
    by_cases h0 : k0 = k
    · subst h0
      simp [setA, lookA, h]
    · by_cases h1 : k' = k0 <;> simp [setA, h0, lookA, h1, ih]

/-- A string-keyed map of scalar beliefs (`std::map<std::string, double>`). -/
abbrev BeliefMap := List (String × ℚ)

/-- Lookup with default 0, used where the C++ reads `.at(k)` under a `count` guard. -/
def getQ (m : BeliefMap) (k : String) : ℚ := (lookA m k).getD 0

/-- Structural prefix test on character lists. -/
def charsStartWith : List Char → List Char → Bool
  | [], _ => true
  | _ :: _, [] => false
  | a :: as, b :: bs => a = b && charsStartWith as bs

/-- Structural substring test on character lists. -/
def charsHaveSub : List Char → List Char → Bool
  | [], needle => charsStartWith needle []
  | a :: t, needle => charsStartWith needle (a :: t) || charsHaveSub t needle

/-- Models `s.find(pat) != std::string::npos` (substring containment). -/
def containsSubstr (s pat : String) : Bool :=
  charsHaveSub s.data pat.data

/-- The hardware belief store (`struct HardwareProfile`, Pillar3_Orchestrator.h). -/
structure HardwareProfile where
  base_operational_costs : BeliefMap
  transform_costs : BeliefMap
  flux_sensitivities : BeliefMap
deriving DecidableEq

/-- The per-task data profile produced by the Cortex (vpu_data_structures.h is
absent from src/; the fields are those read and written by Pillar2_Cortex.cpp
and Pillar3_Orchestrator.cpp). -/
structure DataProfile where
  amplitude_flux : ℚ := 0
  frequency_flux : ℚ := 0
  entropy_flux : ℚ := 0
  hamming_weight : ℕ := 0
  sparsity_ratio : ℚ := 1
  power_draw_watts : ℚ := 0
  temperature_celsius : ℚ := 0
  network_latency_ms : ℚ := 0
  network_bandwidth_mbps : ℚ := 0
  io_throughput_mbps : ℚ := 0
  data_quality_score : ℚ := 1
deriving DecidableEq

/-- One plan step (`ExecutionStep`): an operation name and two logical buffer ids. -/
structure ExecutionStep where
  operation_name : String
  input_buffer : String
  output_buffer : String
deriving DecidableEq

/-- A candidate execution plan (`ExecutionPlan`). -/
structure ExecutionPlan where
  chosen_path_name : String
  predicted_holistic_flux : ℚ
  steps : List ExecutionStep
deriving DecidableEq

/-- `Orchestrator::generate_candidate_paths` (Pillar3_Orchestrator.cpp:57). -/
def generate_candidate_paths (task_type : String) : List ExecutionPlan :=
  if task_type = "CONVOLUTION" then
    [⟨"Time Domain (Direct)", 0, [⟨"CONV_DIRECT", "input", "output"⟩]⟩,
     ⟨"Frequency Domain (FFT)", 0,
       [⟨"FFT_FORWARD", "input", "temp_freq"⟩,
        ⟨"ELEMENT_WISE_MULTIPLY", "temp_freq", "temp_result"⟩,
        ⟨"FFT_INVERSE", "temp_result", "output"⟩]⟩]
  else if task_type = "GEMM" then
    [⟨"Naive GEMM", 0, [⟨"GEMM_NAIVE", "input", "output"⟩]⟩,
     ⟨"Flux-Adaptive GEMM", 0, [⟨"GEMM_FLUX_ADAPTIVE", "input", "output"⟩]⟩]
  else if task_type = "SAXPY" then
    [⟨"Standard SAXPY", 0, [⟨"SAXPY_STANDARD", "input", "output"⟩]⟩,
     ⟨"JIT Compiled SAXPY", 0,
       [⟨"JIT_COMPILE_SAXPY", "input_metadata", "compiled_kernel_id"⟩,
        ⟨"EXECUTE_JIT_SAXPY", "input", "output"⟩]⟩]
  else []

/-- The per-step dynamic cost selector inside `Orchestrator::simulate_flux_cost`
(Pillar3_Orchestrator.cpp:106-125).  Note the CONV_DIRECT arm requires BOTH
sensitivities to be present before adding either term. -/
def dynamic_cost (hw : HardwareProfile) (profile : DataProfile) (op : String) : ℚ :=
  if op = "CONV_DIRECT" then
    if (lookA hw.flux_sensitivities "lambda_Conv_Amp").isSome ∧
       (lookA hw.flux_sensitivities "lambda_Conv_Freq").isSome then
      profile.amplitude_flux * getQ hw.flux_sensitivities "lambda_Conv_Amp" +
        profile.frequency_flux * getQ hw.flux_sensitivities "lambda_Conv_Freq"
    else 0
  else if op = "GEMM_NAIVE" ∨ op = "GEMM_FLUX_ADAPTIVE" then
    if (lookA hw.flux_sensitivities "lambda_Sparsity").isSome then
      (1 - profile.sparsity_ratio) * getQ hw.flux_sensitivities "lambda_Sparsity"
    else 0
  else if op = "SAXPY_STANDARD" then
    if (lookA hw.flux_sensitivities "lambda_SAXPY_generic").isSome then
      profile.amplitude_flux * getQ hw.flux_sensitivities "lambda_SAXPY_generic"
    else 0
  else if op = "EXECUTE_JIT_SAXPY" then
    if (lookA hw.flux_sensitivities "lambda_SAXPY_generic").isSome then
      profile.amplitude_flux * getQ hw.flux_sensitivities "lambda_SAXPY_generic" * (1/2)
    else 0
  else 0

/-- Per-step flux: transform cost when present, plus base cost with the dynamic
contribution when present (Pillar3_Orchestrator.cpp:95-130). -/
def step_flux (hw : HardwareProfile) (profile : DataProfile) (op : String) : ℚ :=
  (match lookA hw.transform_costs op with
   | some c => c
   | none => 0) +
  (match lookA hw.base_operational_costs op with
   | some b => b + dynamic_cost hw profile op
   | none => 0)

/-- The IoT adjustment multiplier (Pillar3_Orchestrator.cpp:138-205). -/
def env_cost_multiplier (profile : DataProfile) (plan : ExecutionPlan) : ℚ :=
  let m1 : ℚ := if profile.temperature_celsius > 85 then 3/2 else 1
  let m2 : ℚ :=
    if profile.power_draw_watts > 100 then
      1 + (profile.power_draw_watts - 100) * (5/1000)
    else 1
  let uses_net := plan.steps.any fun s =>
    containsSubstr s.operation_name "NETWORK_" || containsSubstr s.operation_name "REMOTE_"
  let m3 : ℚ := if uses_net ∧ profile.network_latency_ms > 100 then 6/5 else 1
  let uses_io := plan.steps.any fun s =>
    containsSubstr s.operation_name "DISK_" || containsSubstr s.operation_name "LOAD_"
  let m4 : ℚ :=
    if uses_io ∧ profile.io_throughput_mbps < 50 ∧ profile.io_throughput_mbps > 0 then
      23/20
    else 1
  let m := m1 * m2 * m3 * m4
  if 0 < profile.data_quality_score ∧ profile.data_quality_score < 1 then
    m / profile.data_quality_score
  else if profile.data_quality_score ≤ 0 then m * 10
  else m

/-- `Orchestrator::simulate_flux_cost` (Pillar3_Orchestrator.cpp:91-216). -/
def simulate_flux_cost (hw : HardwareProfile) (plan : ExecutionPlan)
    (profile : DataProfile) : ℚ :=
  (plan.steps.foldl (fun acc s => acc + step_flux hw profile s.operation_name) 0) *
    env_cost_multiplier profile plan

/-- Insert a plan into a flux-sorted list, keeping ascending order. -/
def insertPlan (p : ExecutionPlan) : List ExecutionPlan → List ExecutionPlan
  | [] => [p]
  | q :: rest =>
    if p.predicted_holistic_flux < q.predicted_holistic_flux then p :: q :: rest
    else q :: insertPlan p rest

/-- Ascending sort on predicted flux, modelling the `std::sort` call in
`determine_optimal_path` (Pillar3_Orchestrator.cpp:44-46).  `std::sort` is not
stable; every claim evaluated below has pairwise distinct costs, for which any
correct sort yields the same list. -/
def sortPlans : List ExecutionPlan → List ExecutionPlan
  | [] => []
  | p :: rest => insertPlan p (sortPlans rest)

/-- `Orchestrator::determine_optimal_path` (Pillar3_Orchestrator.cpp:15-53).
`generate_paths_with_llm` always returns the empty list (line 234), so the LLM
toggle always falls back to the built-in strategy table. -/
def determine_optimal_path (hw : HardwareProfile) (use_llm_for_paths : Bool)
    (task_type : String) (profile : DataProfile) : Except String (List ExecutionPlan) :=
  let llm_paths : List ExecutionPlan := []
  let candidates :=
    if use_llm_for_paths then
      if llm_paths.isEmpty then generate_candidate_paths task_type else llm_paths
    else generate_candidate_paths task_type
  if candidates.isEmpty then
    Except.error ("No candidate paths found for task: " ++ task_type)
  else
    Except.ok (sortPlans (candidates.map fun p =>
      { p with predicted_holistic_flux := simulate_flux_cost hw p profile }))

/-- The learning context handed to the Feedback loop (fields as used by
Pillar5_Feedback.cpp and vpu_core.cpp; the defining header is absent from src/).
Empty strings model unset optional keys. -/
structure LearningContext where
  path_name : String := ""
  transform_key : String := ""
  main_operation_name : String := ""
  operation_key : String := ""
deriving DecidableEq

/-- The measured outcome of one plan execution (fields as written by
`Cerebellum::execute`, Pillar4_Cerebellum.cpp:76-81).  The wall-clock latency
is real time, outside the embedding; it is carried but never consulted by any
decision logic. -/
structure ActualPerformanceRecord where
  observed_latency_ns : ℚ := 0
  observed_cycle_cost : ℕ := 0
  observed_hw_in_cost : ℕ := 0
  observed_hw_out_cost : ℕ := 0
  observed_holistic_flux : ℚ := 0
deriving DecidableEq

/-- `FeedbackLoop::learn_from_feedback` (Pillar5_Feedback.cpp:32-112).
`thr`, `lr`, `lrb` are the constructor parameters `QUARK_THRESHOLD`,
`LEARNING_RATE`, `LEARNING_RATE_BASE_COST` (defaults 0.15, 0.1, 0.05). -/
def learn_from_feedback (thr lr lrb : ℚ) (hw : HardwareProfile)
    (ctx : LearningContext) (predicted : ℚ) (record : ActualPerformanceRecord) :
    HardwareProfile :=
  let obs := record.observed_holistic_flux
  if predicted = 0 ∧ obs = 0 then hw
  else if predicted = 0 ∧ obs ≠ 0 then
    -- blame flow (lines 40-59): the transform entry is set to the observation
    -- directly; failing that, the sensitivity gets a floor-and-bump update.
    if ctx.transform_key ≠ "" ∧ (lookA hw.transform_costs ctx.transform_key).isSome then
      { hw with transform_costs := setA hw.transform_costs ctx.transform_key obs }
    else if ctx.operation_key ≠ "" ∧ (lookA hw.flux_sensitivities ctx.operation_key).isSome then
      let l := getQ hw.flux_sensitivities ctx.operation_key
      let s := setA hw.flux_sensitivities ctx.operation_key (max l (1/100) + obs * lr)
      { hw with flux_sensitivities := s }
    else hw
  else
    let deviation := (obs - predicted) / predicted
    if |deviation| < thr then hw
    else
      let t :=
        if ctx.transform_key ≠ "" ∧ (lookA hw.transform_costs ctx.transform_key).isSome then
          let v := getQ hw.transform_costs ctx.transform_key
          let u := v + (obs - predicted) * lr
          setA hw.transform_costs ctx.transform_key (if u < 1 then 1 else u)
        else hw.transform_costs
      let b :=
        if ctx.main_operation_name ≠ "" ∧
            (lookA hw.base_operational_costs ctx.main_operation_name).isSome then
          let v := getQ hw.base_operational_costs ctx.main_operation_name
          let u := v + v * deviation * lrb
          setA hw.base_operational_costs ctx.main_operation_name (if u < 1 then 1 else u)
        else hw.base_operational_costs
      let s :=
        if ctx.operation_key ≠ "" ∧ (lookA hw.flux_sensitivities ctx.operation_key).isSome then
          let v := getQ hw.flux_sensitivities ctx.operation_key
          let u := v * (1 + deviation * lr)
          setA hw.flux_sensitivities ctx.operation_key (if u < 0 then 0 else u)
        else hw.flux_sensitivities
      ⟨b, t, s⟩

/-- `FeedbackLoop::should_explore` (Pillar5_Feedback.cpp:115-122): the uniform
draw `u ∈ [0,1)` is a parameter of the embedding. -/
def should_explore (u rate : ℚ) : Bool := u < rate

/-- `VPU_Task::KernelType` (api/vpu.h). -/
inductive KernelType where
  | FUNCTION_POINTER
  | WASM_BINARY
deriving DecidableEq

/-- A submitted task (`VPU_Task`).  Buffers are `Option (List ℚ)`: `none` is a
null pointer, `some xs` a buffer whose payload is `xs`.  Only the nullness of
the native callable / WASM blob is observable to the dispatcher, so those are
carried as flags.  `alpha` and `extended_params` are the task parameter bag
consumed by the seeded kernels (`task.alpha`, `task.extended_params` in
vpu_core.cpp; their defining header is absent from src/). -/
structure VPUTask where
  task_id : ℕ := 0
  task_type : String := ""
  kernel_type : KernelType := KernelType.FUNCTION_POINTER
  function_pointer_nonnull : Bool := false
  wasm_binary_nonnull : Bool := false
  kernel_size : ℕ := 0
  data_in_a : Option (List ℚ) := none
  data_in_b : Option (List ℚ) := none
  data_out : Option (List ℚ) := none
  num_elements : ℕ := 0
  data_in_a_size_bytes : ℕ := 0
  data_in_b_size_bytes : ℕ := 0
  alpha : ℚ := 0
  extended_params : List (String × Int) := []

/-- Per-step cost report (`HAL::KernelFluxReport`, hal/hal.h). -/
structure KernelFluxReport where
  cycle_cost : ℕ := 0
  hw_in_cost : ℕ := 0
  hw_out_cost : ℕ := 0
deriving DecidableEq

/-- A registry kernel (`HAL::GenericKernel`): invoked with the task, it returns
the possibly mutated task (output buffer writes) and a flux report. -/
abbrev Kernel := VPUTask → VPUTask × KernelFluxReport

/-- `HAL::KernelLibrary`: operation name to kernel. -/
abbrev KernelLibrary := List (String × Kernel)

/-- Machine-level facts the shallow embedding cannot compute itself.
`ham` is `HAL::calculate_data_hamming_weight` over a float buffer's bytes,
`ham_bytes` the same over the first `n` bytes of a double buffer (Cortex),
`fft` the FFTW r2c interleaved spectrum (VPUCore's FFT_FORWARD kernel),
`fft_cycle n` the value `uint64_t(n * log2(n) * 5)`, and `spectral` the
frequency/entropy flux pair of `Cortex::profileOmni` (centroid and normalised
spectral entropy, both resting on the FFTW spectrum). -/
structure Externals where
  ham : List ℚ → ℕ
  ham_bytes : List ℚ → ℕ → ℕ
  fft : List ℚ → List ℚ
  fft_cycle : ℕ → ℕ
  spectral : List ℚ → ℚ × ℚ

/-- The staged JIT kernel: `compile_saxpy_for_data` fixes the scalar to 1.0
(`fixed_a`, Pillar4_Cerebellum.cpp:131) and bakes in the sparse/dense choice;
the captured pointers alias the task's buffers, so invocation reads the task's
buffers at call time. -/
structure JITStagedKernel where
  use_sparse : Bool
  a : ℚ
deriving DecidableEq

/-- The input zero-ratio analysed by the JIT engine
(Pillar4_Cerebellum.cpp:133-145): 1.0 when the analysis vector is empty. -/
def jit_sparsity (task : VPUTask) : ℚ :=
  match task.data_in_a with
  | none => 1
  | some xs =>
    if task.num_elements = 0 then 1
    else (((xs.take task.num_elements).filter fun v => v = 0).length : ℚ) / task.num_elements

/-- `FluxJITEngine::compile_saxpy_for_data` (Pillar4_Cerebellum.cpp:115-211).
`generate_kernel_with_llm` always returns null (line 110), so the LLM toggle
always falls back to the local synthesis; the result is the staged kernel. -/
def compile_saxpy_for_data (task : VPUTask) : JITStagedKernel :=
  ⟨jit_sparsity task > 1/2, 1⟩

/-- The specialized SAXPY stubs (`HAL::cpu_saxpy_sparse_specialized` /
`cpu_saxpy_dense_specialized`, cpu_kernels.cpp:182-196): only `y[0]` changes,
to `y[0] + a*x[0] + 1` (sparse) or `y[0] + a*x[0] + 2` (dense). -/
def saxpy_specialized_stub (use_sparse : Bool) (a : ℚ) (x y : List ℚ) : List ℚ :=
  match y with
  | [] => []
  | y0 :: rest =>
    let x0 := match x with
      | [] => 0
      | v :: _ => v
    (y0 + a * x0 + (if use_sparse then 1 else 2)) :: rest

/-- The JIT execution wrapper (`saxpy_execution_lambda`,
Pillar4_Cerebellum.cpp:154-196): null/empty guard, popcount-based in/out costs,
the stub specialization, write-back of the first `n` outputs, cycle cost 2n. -/
def run_jit_kernel (ext : Externals) (k : JITStagedKernel) (task : VPUTask) :
    VPUTask × KernelFluxReport :=
  match task.data_in_a, task.data_out with
  | some xs, some ys =>
    if task.num_elements = 0 then (task, {})
    else
      let n := task.num_elements
      let x_temp := xs.take n
      let y_temp := ys.take n
      let hw_in := ext.ham x_temp + ext.ham y_temp
      let y_new := saxpy_specialized_stub k.use_sparse k.a x_temp y_temp
      let out := y_new ++ ys.drop n
      ({ task with data_out := some out }, ⟨2 * n, hw_in, ext.ham y_new⟩)
  | _, _ => (task, {})

/-- One cerebellum dispatch step (the body of the loop in
`Cerebellum::execute`, Pillar4_Cerebellum.cpp:44-71). -/
def cerebellum_step (ext : Externals) (lib : KernelLibrary) (task : VPUTask)
    (staged : Option JITStagedKernel) (op : String) :
    Except String (VPUTask × Option JITStagedKernel × KernelFluxReport) :=
  if op = "JIT_COMPILE_SAXPY" then
    Except.ok (task, some (compile_saxpy_for_data task), {})
  else if op = "EXECUTE_JIT_SAXPY" then
    match staged with
    | some k =>
      let (t, r) := run_jit_kernel ext k task
      Except.ok (t, staged, r)
    | none => Except.error "EXECUTE_JIT_SAXPY called without a compiled JIT kernel."
  else
    match lookA lib op with
    | some f =>
      let (t, r) := f task
      Except.ok (t, staged, r)
    | none => Except.error ("Kernel not found in library: " ++ op)

/-- The step loop of `Cerebellum::execute`, accumulating the three report
counters. -/
def cerebellum_run (ext : Externals) (lib : KernelLibrary) :
    List ExecutionStep → VPUTask → Option JITStagedKernel → ℕ × ℕ × ℕ →
    Option JITStagedKernel × Except String (VPUTask × ℕ × ℕ × ℕ)
  | [], task, staged, acc => (staged, Except.ok (task, acc))
  | s :: rest, task, staged, (c, hi, ho) =>
    match cerebellum_step ext lib task staged s.operation_name with
    | Except.error e => (staged, Except.error e)
    | Except.ok (t, st, r) =>
      cerebellum_run ext lib rest t st (c + r.cycle_cost, hi + r.hw_in_cost, ho + r.hw_out_cost)

/-- `Cerebellum::execute` (Pillar4_Cerebellum.cpp:17-90).  `staged_member` is
the `last_jit_compiled_kernel_` member on entry; line 21 clears it before any
step runs.  The observed latency is wall-clock time, modelled as 0.  The
`memory_buffers` map seeded at lines 23-37 is never consulted by any kernel
(kernels receive the task itself), so it has no observable effect. -/
def cerebellum_execute (ext : Externals) (lib : KernelLibrary)
    (plan : ExecutionPlan) (task : VPUTask) (staged_member : Option JITStagedKernel) :
    Option JITStagedKernel × Except String (VPUTask × ActualPerformanceRecord) :=
  let _ := staged_member
  match cerebellum_run ext lib plan.steps task none (0, 0, 0) with
  | (st, Except.error e) => (st, Except.error e)
  | (st, Except.ok (t, c, hi, ho)) =>
    (st, Except.ok (t, ⟨0, c, hi, ho, ((c + hi + ho : ℕ) : ℚ)⟩))

/-- The spectral profile triple of `Cortex::profileOmni` (Pillar2_Cortex.cpp). -/
structure OmniProfile where
  amplitude_flux : ℚ := 0
  frequency_flux : ℚ := 0
  entropy_flux : ℚ := 0
deriving DecidableEq

/-- Mean absolute successive difference numerator. -/
def sumAbsDiff : List ℚ → ℚ
  | [] => 0
  | [_] => 0
  | a :: b :: rest => |b - a| + sumAbsDiff (b :: rest)

/-- `Cortex::profileOmni` (Pillar2_Cortex.cpp:182-279): the amplitude flux is
exact arithmetic; the FFTW-based centroid and entropy come from the `spectral`
external. -/
def profileOmni (ext : Externals) (data : Option (List ℚ)) (n : ℕ) : OmniProfile :=
  match data with
  | none => {}
  | some xs =>
    if n = 0 then {}
    else
      let v := xs.take n
      let af := if n > 1 then sumAbsDiff v / ((n : ℚ) - 1) else 0
      let fe := if n ≥ 2 then ext.spectral v else (0, 0)
      ⟨af, fe.1, fe.2⟩

/-- `Cortex::analyze` (Pillar2_Cortex.cpp:38-145).  `override` is the one-shot
test override for the IoT fields; without it the conceptual client supplies the
fixed dummy readings (lines 98-123). -/
def cortex_analyze (ext : Externals) (override : Option DataProfile)
    (task : VPUTask) : DataProfile :=
  let omni :=
    if task.data_in_a.isSome ∧ task.num_elements > 0 then
      profileOmni ext task.data_in_a task.num_elements
    else {}
  let hwpair : ℕ × ℚ :=
    match task.data_in_a with
    | some xs =>
      if task.data_in_a_size_bytes > 0 then
        let hw := ext.ham_bytes xs task.data_in_a_size_bytes
        (hw, 1 - (hw : ℚ) / (8 * task.data_in_a_size_bytes))
      else (0, 1)
    | none => (0, 1)
  let iot : ℚ × ℚ × ℚ × ℚ × ℚ × ℚ :=
    match override with
    | some o =>
      (o.power_draw_watts, o.temperature_celsius, o.network_latency_ms,
       o.network_bandwidth_mbps, o.io_throughput_mbps, o.data_quality_score)
    | none => (75.5, 65.2, 15.3, 980, 250, 0.95)
  { amplitude_flux := omni.amplitude_flux
    frequency_flux := omni.frequency_flux
    entropy_flux := omni.entropy_flux
    hamming_weight := hwpair.1
    sparsity_ratio := hwpair.2
    power_draw_watts := iot.1
    temperature_celsius := iot.2.1
    network_latency_ms := iot.2.2.1
    network_bandwidth_mbps := iot.2.2.2.1
    io_throughput_mbps := iot.2.2.2.2.1
    data_quality_score := iot.2.2.2.2.2 }

/-- `Pillar1_Synapse::validate_task` (Pillar1_Synapse.cpp:72-114).  Note the
input-pointer check at lines 86-92 is commented out in the source: only the
output pointer is validated when `num_elements > 0`. -/
def validate_task (task : VPUTask) : Bool :=
  if task.task_type = "" then false
  else
    match task.kernel_type with
    | KernelType.FUNCTION_POINTER =>
      if !task.function_pointer_nonnull then false
      else if task.num_elements > 0 ∧ task.data_out.isNone then false
      else true
    | KernelType.WASM_BINARY =>
      task.wasm_binary_nonnull && task.kernel_size ≠ 0

/-- `Pillar1_Synapse::submit_task` (Pillar1_Synapse.cpp:20-69): validation plus
the kernel-type dispatch re-checks. -/
def submit_task (task : VPUTask) : Bool :=
  if !validate_task task then false
  else
    match task.kernel_type with
    | KernelType.FUNCTION_POINTER => task.function_pointer_nonnull
    | KernelType.WASM_BINARY => task.wasm_binary_nonnull && task.kernel_size ≠ 0

/-- `HAL::cpu_saxpy` (cpu_kernels.cpp:10-22): no-op when `a = 0`, else
`y[i] = a*x[i] + y[i]` over the common length. -/
def cpu_saxpy (a : ℚ) (x y : List ℚ) : List ℚ :=
  if a = 0 then y else List.zipWith (fun xi yi => a * xi + yi) x y

/-- `HAL::cpu_gemm_naive` (cpu_kernels.cpp:25-37) over exact rationals; reads
beyond a short buffer (undefined in C++) default to 0. -/
def cpu_gemm_naive (A B : List ℚ) (M N K : ℕ) : List ℚ :=
  (List.range (M * N)).map fun idx =>
    let i := idx / N
    let j := idx % N
    ((List.range K).map fun k => (A.getD (i * K + k) 0) * (B.getD (k * N + j) 0)).sum

/-- The `SAXPY_STANDARD` registry kernel (vpu_core.cpp:226-253): null/zero
guard, popcount costs via the externals, `cpu_saxpy` with `task.alpha`,
write-back of the first `n` outputs, cycle cost 2n. -/
def saxpy_standard_kernel (ext : Externals) : Kernel := fun task =>
  match task.data_in_a, task.data_out with
  | some xs, some ys =>
    if task.num_elements = 0 then (task, {})
    else
      let n := task.num_elements
      let x := xs.take n
      let y := ys.take n
      let hw_in := ext.ham x + ext.ham y
      let y_new := cpu_saxpy task.alpha x y
      let out := y_new ++ ys.drop n
      ({ task with data_out := some out }, ⟨2 * n, hw_in, ext.ham y_new⟩)
  | _, _ => (task, {})

/-- The `GEMM_NAIVE` registry kernel (vpu_core.cpp:256-288).  `M`, `N`, `K`
come from the task's `extended_params`; a missing dimension or null buffer
yields the zero report.  Negative dimensions would make the C++ loops vacuous;
`Int.toNat` models that. -/
def gemm_naive_kernel (ext : Externals) : Kernel := fun task =>
  match task.data_in_a, task.data_in_b, task.data_out with
  | some av, some bv, some cv =>
    match lookA task.extended_params "M", lookA task.extended_params "N",
        lookA task.extended_params "K" with
    | some mi, some ni, some ki =>
      let M := mi.toNat
      let N := ni.toNat
      let K := ki.toNat
      let A := av.take (M * K)
      let B := bv.take (K * N)
      let hw_in := ext.ham A + ext.ham B
      let C := cpu_gemm_naive A B M N K
      let out := C ++ cv.drop (M * N)
      ({ task with data_out := some out }, ⟨M * N * K * 2, hw_in, ext.ham C⟩)
    | _, _, _ => (task, {})
  | _, _, _ => (task, {})

/-- The `FFT_FORWARD` registry kernel (vpu_core.cpp:291-322).  The FFTW
spectrum, its Hamming weight and the `n·log2(n)·5` cycle estimate are
externals; the first `n` spectrum entries are written back. -/
def fft_forward_kernel (ext : Externals) : Kernel := fun task =>
  match task.data_in_a, task.data_out with
  | some xs, some ys =>
    if task.num_elements = 0 then (task, {})
    else
      let n := task.num_elements
      let in_vec := xs.take n
      let hw_in := ext.ham in_vec
      let out_vec := ext.fft in_vec
      let out := (out_vec ++ List.replicate n 0).take n ++ ys.drop n
      ({ task with data_out := some out }, ⟨ext.fft_cycle n, hw_in, ext.ham out_vec⟩)
  | _, _ => (task, {})

/-- `VPUCore::initialize_hal` (vpu_core.cpp:222-327): only these three kernels
are registered. -/
def initial_registry (ext : Externals) : KernelLibrary :=
  [("SAXPY_STANDARD", saxpy_standard_kernel ext),
   ("GEMM_NAIVE", gemm_naive_kernel ext),
   ("FFT_FORWARD", fft_forward_kernel ext)]

/-- `VPUCore::initialize_beliefs` (vpu_core.cpp:176-217), in source order. -/
def initial_hw : HardwareProfile :=
  { base_operational_costs :=
      [("CONV_DIRECT", 200), ("ELEMENT_WISE_MULTIPLY", 50), ("GEMM_NAIVE", 500),
       ("GEMM_FLUX_ADAPTIVE", 450), ("SAXPY_STANDARD", 100), ("EXECUTE_JIT_SAXPY", 70)]
    transform_costs :=
      [("FFT_FORWARD", 300), ("FFT_INVERSE", 280), ("JIT_COMPILE_SAXPY", 1000)]
    flux_sensitivities :=
      [("lambda_Conv_Amp", 1), ("lambda_Conv_Freq", 0.8), ("lambda_Sparsity", 150),
       ("lambda_SAXPY_generic", 0.5), ("SAXPY_STANDARD_lambda_hw_combined", 0.1),
       ("EXECUTE_JIT_SAXPY_lambda_hw_combined", 0.05),
       ("GEMM_NAIVE_lambda_hw_combined", 0.2),
       ("GEMM_FLUX_ADAPTIVE_lambda_hw_combined", 0.15),
       ("CONV_DIRECT_lambda_hw_combined", 0.25)] }

/-- The filter inside `TaskGraphOrchestrator::find_frequent_sequences`
(Pillar6_TaskGraphOrchestrator.cpp:85-94): an adjacent pair is counted unless
(a) one name contains a `JIT_` or `EXECUTE_` substring and not both names are
present in `base_operational_costs`, or (b) the two names are identical. -/
def pair_counted (base : BeliefMap) (a b : String) : Bool :=
  (if containsSubstr a "JIT_" || containsSubstr b "JIT_" ||
      containsSubstr a "EXECUTE_" || containsSubstr b "EXECUTE_" then
    (lookA base a).isSome && (lookA base b).isSome
  else true) && a ≠ b

/-- Adjacent operation-name pairs of a step list. -/
def adjacent_pairs (steps : List ExecutionStep) : List (String × String) :=
  List.zipWith (fun s t => (s.operation_name, t.operation_name)) steps steps.tail

/-- `sequence_counts[{a,b}]++` on the counting map. -/
def bumpCount (m : List ((String × String) × ℕ)) (p : String × String) :
    List ((String × String) × ℕ) :=
  setA m p ((lookA m p).getD 0 + 1)

/-- `TaskGraphOrchestrator::find_frequent_sequences`
(Pillar6_TaskGraphOrchestrator.cpp:65-101). -/
def find_frequent_sequences (base : BeliefMap) (hist : List ExecutionPlan) :
    List ((String × String) × ℕ) :=
  if hist.length < 2 ∧ (hist.isEmpty ∨ ((hist.headD ⟨"", 0, []⟩).steps.length < 2)) then []
  else
    hist.foldl
      (fun m plan =>
        ((adjacent_pairs plan.steps).filter fun p => pair_counted base p.1 p.2).foldl
          bumpCount m)
      []

/-- The placeholder callable installed for a fused kernel
(Pillar6_TaskGraphOrchestrator.cpp:113-116): it only logs, so its observable
effect is the zero report and an untouched task. -/
def fused_placeholder_kernel : Kernel := fun task => (task, {})

/-- `TaskGraphOrchestrator::create_fused_kernel`
(Pillar6_TaskGraphOrchestrator.cpp:103-132). -/
def create_fused_kernel (lib : KernelLibrary) (hw : HardwareProfile)
    (op1 op2 : String) : KernelLibrary × HardwareProfile :=
  let fused_name := "FUSED_" ++ op1 ++ "_" ++ op2
  if (lookA lib fused_name).isSome then (lib, hw)
  else
    let cost1 := (lookA hw.base_operational_costs op1).getD 100
    let cost2 := (lookA hw.base_operational_costs op2).getD 100
    let b := setA hw.base_operational_costs fused_name ((8/10) * (cost1 + cost2))
    (setA lib fused_name fused_placeholder_kernel, { hw with base_operational_costs := b })

/-- `TaskGraphOrchestrator::analyze_and_fuse_patterns`
(Pillar6_TaskGraphOrchestrator.cpp:38-63).  The C++ iterates the `std::map` in
key order; the iteration order is observable only when a fused name feeds a
later fusion in the same pass, which no generated plan name can produce. -/
def analyze_and_fuse_patterns (lib : KernelLibrary) (hw : HardwareProfile)
    (hist : List ExecutionPlan) (threshold : ℕ) : KernelLibrary × HardwareProfile :=
  if hist.isEmpty then (lib, hw)
  else
    (find_frequent_sequences hw.base_operational_costs hist).foldl
      (fun acc e => if e.2 ≥ threshold then create_fused_kernel acc.1 acc.2 e.1.1 e.1.2 else acc)
      (lib, hw)

/-- `TaskGraphOrchestrator::record_executed_plan`
(Pillar6_TaskGraphOrchestrator.cpp:24-36): append, bump the counter, analyse
when the counter divides the interval. -/
def record_executed_plan (lib : KernelLibrary) (hw : HardwareProfile)
    (hist : List ExecutionPlan) (counter threshold interval : ℕ)
    (plan : ExecutionPlan) : KernelLibrary × HardwareProfile × List ExecutionPlan × ℕ :=
  let hist' := hist ++ [plan]
  let counter' := counter + 1
  if counter' % interval = 0 then
    let (lib', hw') := analyze_and_fuse_patterns lib hw hist' threshold
    (lib', hw', hist', counter')
  else (lib, hw, hist', counter')

/-- Plan choice in `VPUCore::execute_task` (vpu_core.cpp:96-116): the front
candidate unless exploration fires and a second candidate exists. -/
def choose_plan (cands : List ExecutionPlan) (rate u : ℚ) : ExecutionPlan × Bool :=
  match cands with
  | [] => (⟨"", 0, []⟩, false)
  | c0 :: rest =>
    if should_explore u rate then
      match rest with
      | c1 :: _ => (c1, true)
      | [] => (c0, false)
    else (c0, false)

/-- The `LearningContext` construction in `VPUCore::execute_task`
(vpu_core.cpp:124-165). -/
def build_learning_context (chosen : ExecutionPlan) (explored : Bool)
    (task_type : String) : LearningContext :=
  let path_name := chosen.chosen_path_name ++ (if explored then " (Exploratory)" else "")
  let base : LearningContext :=
    if containsSubstr chosen.chosen_path_name "FFT" then
      { path_name := path_name, transform_key := "TRANSFORM_TIME_TO_FREQ" }
    else if containsSubstr chosen.chosen_path_name "JIT Compiled SAXPY" then
      { path_name := path_name, transform_key := "TRANSFORM_JIT_COMPILE_SAXPY",
        main_operation_name := "EXECUTE_JIT_SAXPY",
        operation_key := "lambda_SAXPY_generic" }
    else { path_name := path_name }
  let is_transform_focused :=
    containsSubstr chosen.chosen_path_name "FFT" ||
      containsSubstr chosen.chosen_path_name "JIT Compiled SAXPY"
  if ¬is_transform_focused ∨ base.main_operation_name ≠ "" then
    if task_type = "CONVOLUTION" then
      if ¬is_transform_focused then
        { base with main_operation_name := "CONV_DIRECT", operation_key := "lambda_Conv_Amp" }
      else base
    else if task_type = "GEMM" then
      let main :=
        match chosen.steps.find? fun s =>
            s.operation_name = "GEMM_NAIVE" ∨ s.operation_name = "GEMM_FLUX_ADAPTIVE" with
        | some s => s.operation_name
        | none => base.main_operation_name
      { base with main_operation_name := main, operation_key := "lambda_Sparsity" }
    else if task_type = "SAXPY" then
      if ¬is_transform_focused then
        { base with main_operation_name := "SAXPY_STANDARD",
                    operation_key := "lambda_SAXPY_generic" }
      else base
    else base
  else base

/-- The dispatcher-visible mutable state: the shared belief store, kernel
registry, Pillar 6 history and counter with its two knobs, the cerebellum's
staged-JIT member, the last performance record, the LLM toggles and the
exploration rate. -/
structure VPUState where
  hw : HardwareProfile
  kernel_lib : KernelLibrary
  plan_history : List ExecutionPlan
  task_execution_counter : ℕ
  fusion_candidate_threshold : ℕ
  analysis_interval : ℕ
  staged : Option JITStagedKernel
  last_perf : ActualPerformanceRecord
  use_llm_paths : Bool
  exploration_rate : ℚ

/-- The state after `VPUCore::VPUCore()` (vpu_core.cpp:57-73): seeded beliefs
and registry, empty history, Pillar 6 defaults (threshold 10, interval 5),
FeedbackLoop defaults (exploration rate 0.1). -/
def vpu_initial_state (ext : Externals) : VPUState :=
  ⟨initial_hw, initial_registry ext, [], 0, 10, 5, none, {}, false, 0.1⟩

/-- `VPUCore::execute_task` (vpu_core.cpp:75-174): the full per-task loop.
`u` is this call's uniform RNG draw.  An `Except.error` result models both the
early-return aborts and the C++ exceptions that propagate out uncaught. -/
def execute_task (ext : Externals) (S : VPUState) (task : VPUTask) (u : ℚ) :
    VPUState × Except String VPUTask :=
  if !submit_task task then (S, Except.error "Task rejected by Pillar1_Synapse")
  else
    let profile := cortex_analyze ext none task
    match determine_optimal_path S.hw S.use_llm_paths task.task_type profile with
    | Except.error e => (S, Except.error e)
    | Except.ok candidate_plans =>
      if candidate_plans.isEmpty then
        (S, Except.error "Orchestrator returned no candidate plans")
      else
        let (chosen, explored) := choose_plan candidate_plans S.exploration_rate u
        match cerebellum_execute ext S.kernel_lib chosen task S.staged with
        | (st, Except.error e) => ({ S with staged := st }, Except.error e)
        | (st, Except.ok (task', perf)) =>
          let ctx := build_learning_context chosen explored task.task_type
          let hw' := learn_from_feedback (15/100) (1/10) (5/100) S.hw ctx
            chosen.predicted_holistic_flux perf
          let (lib', hw'', hist', counter') :=
            record_executed_plan S.kernel_lib hw' S.plan_history
              S.task_execution_counter S.fusion_candidate_threshold
              S.analysis_interval chosen
          ({ S with hw := hw'', kernel_lib := lib', plan_history := hist',
                    task_execution_counter := counter', staged := st,
                    last_perf := perf },
           Except.ok task')

/-! ### Claim C5: the seeded transform-cost map -/

/-- C5 (code_bug evidence): immediately after initialization the transform-cost
map holds exactly FFT_FORWARD=300, FFT_INVERSE=280 and JIT_COMPILE_SAXPY=1000;
the entries TRANSFORM_TIME_TO_FREQ=200000 and TRANSFORM_JIT_COMPILE_SAXPY=75000
demanded by the claim (and by the repository's own test narrative,
tests/e2e_full_loop.cpp:39 and :134) are absent. -/
theorem C5_initial_transform_costs :
    lookA initial_hw.transform_costs "FFT_FORWARD" = some 300 ∧
    lookA initial_hw.transform_costs "FFT_INVERSE" = some 280 ∧
    lookA initial_hw.transform_costs "JIT_COMPILE_SAXPY" = some 1000 ∧
    lookA initial_hw.transform_costs "TRANSFORM_TIME_TO_FREQ" = none ∧
    lookA initial_hw.transform_costs "TRANSFORM_JIT_COMPILE_SAXPY" = none := by
  refine ⟨?_, ?_, ?_, ?_, ?_⟩ <;> simp [initial_hw, lookA]

/-! ### Claim C1: missing sensitivities in cost prediction -/

/-- A belief store whose sensitivities hold `lambda_Conv_Amp` but not
`lambda_Conv_Freq`. -/
def hwC1 : HardwareProfile :=
  ⟨[("CONV_DIRECT", 200)], [], [("lambda_Conv_Amp", 1)]⟩

/-- A profile with amplitude flux 50 and environmental fields that leave the
cost multiplier at 1. -/
def profC1 : DataProfile :=
  { amplitude_flux := 50, frequency_flux := 7 }

/-- The single-step direct-convolution plan. -/
def planC1 : ExecutionPlan :=
  ⟨"Time Domain (Direct)", 0, [⟨"CONV_DIRECT", "input", "output"⟩]⟩

/-- C1 counterexample: with `lambda_Conv_Amp = 1` present, `lambda_Conv_Freq`
absent and amplitude flux 50, the predicted cost of the CONV_DIRECT plan is the
bare base cost 200 — the claimed `amplitudeFlux·λ_ConvAmp` term (which would
give 200 + 50·1 = 250) is NOT added, because the source gates the whole
dynamic term on both sensitivities being present
(Pillar3_Orchestrator.cpp:107-108). -/
theorem C1_counterexample :
    simulate_flux_cost hwC1 planC1 profC1 = 200 ∧ (200 : ℚ) ≠ 250 := by
  constructor
  · simp [simulate_flux_cost, step_flux, dynamic_cost, env_cost_multiplier,
      hwC1, planC1, profC1, lookA, getQ, containsSubstr, charsHaveSub,
      charsStartWith]
    norm_num
  · norm_num

/-- C1 amended: a missing sensitivity never fails and contributes 0 to the
dynamic cost — but for CONV_DIRECT the two sensitivities are tested jointly,
so the absence of either one zeroes the whole dynamic term; a step name
missing from both cost maps contributes 0 outright. -/
theorem C1_amended (hw : HardwareProfile) (profile : DataProfile) :
    ((lookA hw.flux_sensitivities "lambda_Conv_Amp" = none ∨
      lookA hw.flux_sensitivities "lambda_Conv_Freq" = none) →
        dynamic_cost hw profile "CONV_DIRECT" = 0) ∧
    (lookA hw.flux_sensitivities "lambda_Sparsity" = none →
        dynamic_cost hw profile "GEMM_NAIVE" = 0 ∧
        dynamic_cost hw profile "GEMM_FLUX_ADAPTIVE" = 0) ∧
    (lookA hw.flux_sensitivities "lambda_SAXPY_generic" = none →
        dynamic_cost hw profile "SAXPY_STANDARD" = 0 ∧
        dynamic_cost hw profile "EXECUTE_JIT_SAXPY" = 0) ∧
    (∀ op, lookA hw.transform_costs op = none →
      lookA hw.base_operational_costs op = none → step_flux hw profile op = 0) := by
  refine ⟨?_, ?_, ?_, ?_⟩
  · rintro (h | h) <;> simp [dynamic_cost, h]
  · intro h
    constructor <;> simp [dynamic_cost, h]
  · intro h
    constructor <;> simp [dynamic_cost, h]
  · intro op h1 h2
    simp [step_flux, h1, h2]

/-- C1 amended, witnessed at the concrete counterexample store: with
`lambda_Conv_Freq` absent the CONV_DIRECT dynamic term is 0. -/
theorem C1_amended_witness : dynamic_cost hwC1 profC1 "CONV_DIRECT" = 0 :=
  (C1_amended hwC1 profC1).1 (Or.inr (by simp [hwC1, lookA]))

/-! ### Claim C2: the credit-assignment update -/

/-- Lookup through the guarded map update used by all three arms of
`learn_from_feedback`: when the key `key` is set in the context and present in
the map, its entry becomes `f` of its old value; every other present entry is
untouched. -/
theorem lookA_cond_update_some (m : BeliefMap) (key k : String) (f : ℚ → ℚ) (v : ℚ)
    (hkv : lookA m k = some v) :
    lookA (if key ≠ "" ∧ (lookA m key).isSome then setA m key (f (getQ m key)) else m) k
      = some (if k = key ∧ key ≠ "" then f v else v) := by
  by_cases hk : k = key
  · subst hk
    by_cases hne : k ≠ ""
    · rw [if_pos ⟨hne, by rw [hkv]; rfl⟩, lookA_setA_self, if_pos ⟨rfl, hne⟩]
      have : getQ m k = v := by rw [getQ, hkv]; rfl
      rw [this]
    · rw [if_neg (by simp [hne]), hkv, if_neg (by simp [hne])]
  · have hkey : ¬(k = key ∧ key ≠ "") := fun h => hk h.1
    by_cases hc : key ≠ "" ∧ (lookA m key).isSome
    · rw [if_pos hc, lookA_setA_ne _ _ _ _ hk, hkv, if_neg hkey]
    · rw [if_neg hc, hkv, if_neg hkey]

/-- Lookup through the guarded map update: keys absent from the map before the
update are still absent after it. -/
theorem lookA_cond_update_none (m : BeliefMap) (key k : String) (f : ℚ → ℚ)
    (hkn : lookA m k = none) :
    lookA (if key ≠ "" ∧ (lookA m key).isSome then setA m key (f (getQ m key)) else m) k
      = none := by
  by_cases hc : key ≠ "" ∧ (lookA m key).isSome
  · rw [if_pos hc]
    by_cases hk : k = key
    · subst hk
      rw [hkn] at hc
      exact absurd hc.2 (by simp)
    · rw [lookA_setA_ne _ _ _ _ hk]
      exact hkn
  · rw [if_neg hc]
    exact hkn

/-- C2: when predicted > 0 and the relative deviation d reaches the quark
threshold, `learn_from_feedback` rewrites exactly the keys present both in the
LearningContext and in the corresponding map: the transform cost becomes
`cost + (observed − predicted)·LR` clamped to ≥ 1, the main-operation base
cost becomes `base + base·d·LR_base` clamped to ≥ 1, and the sensitivity
becomes `λ·(1 + d·LR)` clamped to ≥ 0; all other entries, and all absent
keys, are untouched. -/
theorem C2_quark_update (thr lr lrb : ℚ) (hw : HardwareProfile)
    (ctx : LearningContext) (predicted : ℚ) (record : ActualPerformanceRecord)
    (hp : 0 < predicted)
    (hd : thr ≤ |(record.observed_holistic_flux - predicted) / predicted|) :
    (∀ k v, lookA hw.transform_costs k = some v →
      lookA (learn_from_feedback thr lr lrb hw ctx predicted record).transform_costs k =
        some (if k = ctx.transform_key ∧ ctx.transform_key ≠ "" then
          (if v + (record.observed_holistic_flux - predicted) * lr < 1 then 1
           else v + (record.observed_holistic_flux - predicted) * lr)
        else v)) ∧
    (∀ k, lookA hw.transform_costs k = none →
      lookA (learn_from_feedback thr lr lrb hw ctx predicted record).transform_costs k = none) ∧
    (∀ k v, lookA hw.base_operational_costs k = some v →
      lookA (learn_from_feedback thr lr lrb hw ctx predicted record).base_operational_costs k =
        some (if k = ctx.main_operation_name ∧ ctx.main_operation_name ≠ "" then
          (if v + v * ((record.observed_holistic_flux - predicted) / predicted) * lrb < 1 then 1
           else v + v * ((record.observed_holistic_flux - predicted) / predicted) * lrb)
        else v)) ∧
    (∀ k, lookA hw.base_operational_costs k = none →
      lookA (learn_from_feedback thr lr lrb hw ctx predicted record).base_operational_costs k
        = none) ∧
    (∀ k v, lookA hw.flux_sensitivities k = some v →
      lookA (learn_from_feedback thr lr lrb hw ctx predicted record).flux_sensitivities k =
        some (if k = ctx.operation_key ∧ ctx.operation_key ≠ "" then
          (if v * (1 + ((record.observed_holistic_flux - predicted) / predicted) * lr) < 0 then 0
           else v * (1 + ((record.observed_holistic_flux - predicted) / predicted) * lr))
        else v)) ∧
    (∀ k, lookA hw.flux_sensitivities k = none →
      lookA (learn_from_feedback thr lr lrb hw ctx predicted record).flux_sensitivities k
        = none) := by
  have hpred : predicted ≠ 0 := ne_of_gt hp
  have hnl : ¬(|(record.observed_holistic_flux - predicted) / predicted| < thr) :=
    not_lt.mpr hd
  unfold learn_from_feedback
  rw [if_neg (by simp [hpred]), if_neg (by simp [hpred]), if_neg hnl]
  refine ⟨?_, ?_, ?_, ?_, ?_, ?_⟩
  · intro k v hkv
    exact lookA_cond_update_some _ _ _
      (fun w => if w + (record.observed_holistic_flux - predicted) * lr < 1 then 1
        else w + (record.observed_holistic_flux - predicted) * lr) v hkv
  · intro k hkn
    exact lookA_cond_update_none _ _ _
      (fun w => if w + (record.observed_holistic_flux - predicted) * lr < 1 then 1
        else w + (record.observed_holistic_flux - predicted) * lr) hkn
  · intro k v hkv
    exact lookA_cond_update_some _ _ _
      (fun w => if w + w * ((record.observed_holistic_flux - predicted) / predicted) * lrb < 1
        then 1
        else w + w * ((record.observed_holistic_flux - predicted) / predicted) * lrb) v hkv
  · intro k hkn
    exact lookA_cond_update_none _ _ _
      (fun w => if w + w * ((record.observed_holistic_flux - predicted) / predicted) * lrb < 1
        then 1
        else w + w * ((record.observed_holistic_flux - predicted) / predicted) * lrb) hkn
  · intro k v hkv
    exact lookA_cond_update_some _ _ _
      (fun w => if w * (1 + ((record.observed_holistic_flux - predicted) / predicted) * lr) < 0
        then 0
        else w * (1 + ((record.observed_holistic_flux - predicted) / predicted) * lr)) v hkv
  · intro k hkn
    exact lookA_cond_update_none _ _ _
      (fun w => if w * (1 + ((record.observed_holistic_flux - predicted) / predicted) * lr) < 0
        then 0
        else w * (1 + ((record.observed_holistic_flux - predicted) / predicted) * lr)) hkn

/-- C2 witnessed at the defaults: predicting 100 and observing 0 for a
Standard-SAXPY context drops the SAXPY_STANDARD base cost from 100 to 95. -/
theorem C2_quark_update_witness :
    lookA (learn_from_feedback (15/100) (1/10) (5/100) initial_hw
      ⟨"Standard SAXPY", "", "SAXPY_STANDARD", "lambda_SAXPY_generic"⟩ 100
      { observed_holistic_flux := 0 }).base_operational_costs "SAXPY_STANDARD"
      = some 95 := by
  have h := (C2_quark_update (15/100) (1/10) (5/100) initial_hw
      ⟨"Standard SAXPY", "", "SAXPY_STANDARD", "lambda_SAXPY_generic"⟩ 100
      { observed_holistic_flux := 0 } (by norm_num) (by norm_num)).2.2.1
      "SAXPY_STANDARD" 100 (by simp [initial_hw, lookA])
  rw [h]
  simp
  norm_num

/-! ### Claim C3: post-update bounds on mutated entries -/

/-- Lookup through a single map write: every entry of the result is either an
old entry or the written value. -/
theorem lookA_setA_cases {κ β : Type} [DecidableEq κ] (m : List (κ × β))
    (key k : κ) (w v : β) (h : lookA (setA m key w) k = some v) :
    lookA m k = some v ∨ (k = key ∧ v = w) := by
  by_cases hk : k = key
  · subst hk
    rw [lookA_setA_self] at h
    exact Or.inr ⟨rfl, (Option.some.inj h).symm⟩
  · rw [lookA_setA_ne _ _ _ _ hk] at h
    exact Or.inl h

/-- Lookup through a guarded write of a value bounded below: every entry of the
result is an old entry or obeys the bound. -/
theorem lookA_cond_update_bound {c : Prop} [Decidable c] (m : BeliefMap) (key : String)
    (w lo : ℚ) (hbound : lo ≤ w) (k : String) (v : ℚ)
    (h : lookA (if c then setA m key w else m) k = some v) :
    lookA m k = some v ∨ lo ≤ v := by
  by_cases hc : c
  · rw [if_pos hc] at h
    rcases lookA_setA_cases _ _ _ _ _ h with h' | ⟨_, rfl⟩
    · exact Or.inl h'
    · exact Or.inr hbound
  · rw [if_neg hc] at h
    exact Or.inl h

/-- The learning-context taken through the FFT path, blaming FFT_FORWARD. -/
def ctxC3 : LearningContext :=
  ⟨"Frequency Domain (FFT)", "FFT_FORWARD", "", ""⟩

/-- C3 counterexample: in the blame branch (predicted 0, observed 1/2 > 0) the
FFT_FORWARD transform entry is set to the raw observation 1/2, which is below
the claimed lower bound 1.0 — the blame-branch write
(Pillar5_Feedback.cpp:48) is not clamped. -/
theorem C3_counterexample :
    lookA (learn_from_feedback (15/100) (1/10) (5/100) initial_hw ctxC3 0
      { observed_holistic_flux := 1/2 }).transform_costs "FFT_FORWARD"
      = some (1/2) ∧ ¬(1 ≤ (1/2 : ℚ)) := by
  constructor
  · simp only [learn_from_feedback, ctxC3]
    rw [if_neg (by norm_num), if_pos (by norm_num),
      if_pos ⟨by decide, by simp [initial_hw, lookA]⟩]
    exact lookA_setA_self _ _ _
  · norm_num

/-- C3 amended: provided the learning rate is nonnegative and any observation
reaching the blame branch is at least 1 (true of every holistic flux the
Cerebellum produces, a sum of unsigned counters), every entry mutated by
`learn_from_feedback` obeys the bounds: mutated cost entries are ≥ 1 and
mutated sensitivities are ≥ 0.  Without the `1 ≤ observed` proviso the
blame-branch transform write equals the raw observation and can violate the
cost bound (see the counterexample). -/
theorem C3_amended (thr lr lrb : ℚ) (hw : HardwareProfile) (ctx : LearningContext)
    (predicted : ℚ) (record : ActualPerformanceRecord)
    (hlr : 0 ≤ lr)
    (hobs : predicted = 0 → record.observed_holistic_flux ≠ 0 →
      1 ≤ record.observed_holistic_flux) :
    (∀ k v, lookA (learn_from_feedback thr lr lrb hw ctx predicted record).transform_costs k
        = some v → lookA hw.transform_costs k = some v ∨ 1 ≤ v) ∧
    (∀ k v,
      lookA (learn_from_feedback thr lr lrb hw ctx predicted record).base_operational_costs k
        = some v → lookA hw.base_operational_costs k = some v ∨ 1 ≤ v) ∧
    (∀ k v, lookA (learn_from_feedback thr lr lrb hw ctx predicted record).flux_sensitivities k
        = some v → lookA hw.flux_sensitivities k = some v ∨ 0 ≤ v) := by
  have trivial_all : ∀ m : BeliefMap, ∀ lo : ℚ,
      ∀ k v, lookA m k = some v → lookA m k = some v ∨ lo ≤ v :=
    fun _ _ _ _ h => Or.inl h
  by_cases hA : predicted = 0 ∧ record.observed_holistic_flux = 0
  · simp only [learn_from_feedback]
    rw [if_pos hA]
    exact ⟨trivial_all _ 1, trivial_all _ 1, trivial_all _ 0⟩
  · by_cases hB : predicted = 0 ∧ record.observed_holistic_flux ≠ 0
    · simp only [learn_from_feedback]
      rw [if_neg hA, if_pos hB]
      by_cases hC : ctx.transform_key ≠ "" ∧
          (lookA hw.transform_costs ctx.transform_key).isSome
      · rw [if_pos hC]
        refine ⟨?_, trivial_all _ 1, trivial_all _ 0⟩
        intro k v h
        rcases lookA_setA_cases _ _ _ _ _ h with h' | ⟨_, rfl⟩
        · exact Or.inl h'
        · exact Or.inr (hobs hB.1 hB.2)
      · rw [if_neg hC]
        by_cases hD : ctx.operation_key ≠ "" ∧
            (lookA hw.flux_sensitivities ctx.operation_key).isSome
        · rw [if_pos hD]
          refine ⟨trivial_all _ 1, trivial_all _ 1, ?_⟩
          intro k v h
          rcases lookA_setA_cases _ _ _ _ _ h with h' | ⟨_, rfl⟩
          · exact Or.inl h'
          · refine Or.inr (add_nonneg (le_trans (by norm_num)
              (le_max_right (getQ hw.flux_sensitivities ctx.operation_key) (1/100))) ?_)
            exact mul_nonneg (le_trans zero_le_one (hobs hB.1 hB.2)) hlr
        · rw [if_neg hD]
          exact ⟨trivial_all _ 1, trivial_all _ 1, trivial_all _ 0⟩
    · simp only [learn_from_feedback]
      rw [if_neg hA, if_neg hB]
      by_cases hE : |(record.observed_holistic_flux - predicted) / predicted| < thr
      · rw [if_pos hE]
        exact ⟨trivial_all _ 1, trivial_all _ 1, trivial_all _ 0⟩
      · rw [if_neg hE]
        refine ⟨?_, ?_, ?_⟩
        · intro k v h
          refine lookA_cond_update_bound _ _ _ 1 ?_ k v h
          by_cases hlt : getQ hw.transform_costs ctx.transform_key +
              (record.observed_holistic_flux - predicted) * lr < 1
          · rw [if_pos hlt]
          · rw [if_neg hlt]
            exact not_lt.mp hlt
        · intro k v h
          refine lookA_cond_update_bound _ _ _ 1 ?_ k v h
          by_cases hlt : getQ hw.base_operational_costs ctx.main_operation_name +
              getQ hw.base_operational_costs ctx.main_operation_name *
                ((record.observed_holistic_flux - predicted) / predicted) * lrb < 1
          · rw [if_pos hlt]
          · rw [if_neg hlt]
            exact not_lt.mp hlt
        · intro k v h
          refine lookA_cond_update_bound _ _ _ 0 ?_ k v h
          by_cases hlt : getQ hw.flux_sensitivities ctx.operation_key *
              (1 + ((record.observed_holistic_flux - predicted) / predicted) * lr) < 0
          · rw [if_pos hlt]
          · rw [if_neg hlt]
            exact not_lt.mp hlt

/-- C3 amended, witnessed: the very blame call of the counterexample but with
observation 7 (≥ 1) mutates the FFT_FORWARD entry to 7, within the bound. -/
theorem C3_amended_witness :
    lookA initial_hw.transform_costs "FFT_FORWARD" = some 7 ∨ 1 ≤ (7 : ℚ) :=
  (C3_amended (15/100) (1/10) (5/100) initial_hw ctxC3 0
    { observed_holistic_flux := 7 } (by norm_num)
    (fun _ _ => by norm_num)).1 "FFT_FORWARD" 7 (by
      simp only [learn_from_feedback, ctxC3]
      rw [if_neg (by norm_num), if_pos (by norm_num),
        if_pos ⟨by decide, by simp [initial_hw, lookA]⟩]
      exact lookA_setA_self _ _ _)

/-! ### Claim C6: fused-kernel installation -/

/-- C6: installing a fused kernel whose derived name is new adds the callable
to the registry and sets its base cost to 0.8 of the operand base costs (100
per missing operand), leaving the other maps and all other keys untouched;
when the name is already registered the install is a complete no-op. -/
theorem C6_fused_install (lib : KernelLibrary) (hw : HardwareProfile) (op1 op2 : String) :
    (lookA lib ("FUSED_" ++ op1 ++ "_" ++ op2) = none →
      (lookA (create_fused_kernel lib hw op1 op2).1
        ("FUSED_" ++ op1 ++ "_" ++ op2)).isSome = true ∧
      lookA (create_fused_kernel lib hw op1 op2).2.base_operational_costs
          ("FUSED_" ++ op1 ++ "_" ++ op2) =
        some ((8/10) * ((lookA hw.base_operational_costs op1).getD 100 +
          (lookA hw.base_operational_costs op2).getD 100)) ∧
      (create_fused_kernel lib hw op1 op2).2.transform_costs = hw.transform_costs ∧
      (create_fused_kernel lib hw op1 op2).2.flux_sensitivities = hw.flux_sensitivities ∧
      (∀ k, k ≠ "FUSED_" ++ op1 ++ "_" ++ op2 →
        lookA (create_fused_kernel lib hw op1 op2).1 k = lookA lib k ∧
        lookA (create_fused_kernel lib hw op1 op2).2.base_operational_costs k =
          lookA hw.base_operational_costs k)) ∧
    ((lookA lib ("FUSED_" ++ op1 ++ "_" ++ op2)).isSome = true →
      create_fused_kernel lib hw op1 op2 = (lib, hw)) := by
  constructor
  · intro hnone
    simp only [create_fused_kernel]
    rw [if_neg (by simp [hnone])]
    refine ⟨?_, ?_, rfl, rfl, ?_⟩
    · rw [lookA_setA_self]
      rfl
    · exact lookA_setA_self _ _ _
    · intro k hk
      exact ⟨lookA_setA_ne _ _ _ _ hk, lookA_setA_ne _ _ _ _ hk⟩
  · intro hsome
    simp only [create_fused_kernel]
    rw [if_pos hsome]

/-- C6 witnessed at the seeded store: fusing GEMM_NAIVE (500) with
SAXPY_STANDARD (100) into an empty registry yields a base cost of
0.8·(500+100) = 480. -/
theorem C6_fused_install_witness :
    lookA (create_fused_kernel [] initial_hw "GEMM_NAIVE"
        "SAXPY_STANDARD").2.base_operational_costs
      "FUSED_GEMM_NAIVE_SAXPY_STANDARD" = some 480 := by
  rw [show ("FUSED_GEMM_NAIVE_SAXPY_STANDARD" : String) =
    "FUSED_" ++ "GEMM_NAIVE" ++ "_" ++ "SAXPY_STANDARD" by rfl]
  rw [((C6_fused_install [] initial_hw "GEMM_NAIVE" "SAXPY_STANDARD").1 rfl).2.1]
  simp [initial_hw, lookA]
  norm_num

/-! ### Claim C8: forced exploration -/

/-- A list prefix followed by the pattern always contains the pattern. -/
theorem charsStartWith_append (xs ys : List Char) :
    charsStartWith xs (xs ++ ys) = true := by
  induction xs with
  | nil => rfl
  | cons a t ih => simp [charsStartWith, ih]

/-- The substring test succeeds on any list ending in the pattern. -/
theorem charsHaveSub_suffix (pre needle : List Char) :
    charsHaveSub (pre ++ needle) needle = true := by
  induction pre with
  | nil =>
    cases needle with
    | nil => rfl
    | cons a t =>
      have h := charsStartWith_append (a :: t) []
      rw [List.append_nil] at h
      simp [charsHaveSub, h]
  | cons a t ih =>
    simp [charsHaveSub, ih]

/-- C8: with the exploration rate forced to 1.0 and at least two candidates,
the executed plan is the second candidate and the learning context's path name
carries the " (Exploratory)" marker; with the rate forced to 0.0, the executed
plan is always the first candidate. -/
theorem C8_exploration (cands : List ExecutionPlan) (u : ℚ) (task_type : String) :
    (∀ c0 c1 rest, cands = c0 :: c1 :: rest → u < 1 →
      choose_plan cands 1 u = (c1, true) ∧
      (build_learning_context c1 true task_type).path_name =
        c1.chosen_path_name ++ " (Exploratory)" ∧
      containsSubstr (build_learning_context c1 true task_type).path_name
        "(Exploratory)" = true) ∧
    (0 ≤ u → choose_plan cands 0 u = (cands.headD ⟨"", 0, []⟩, false)) := by
  constructor
  · rintro c0 c1 rest rfl hu
    have hname : (build_learning_context c1 true task_type).path_name =
        c1.chosen_path_name ++ " (Exploratory)" := by
      simp only [build_learning_context]
      split_ifs <;> rfl
    refine ⟨?_, hname, ?_⟩
    · simp [choose_plan, should_explore, hu]
    · rw [hname, containsSubstr]
      have hdata : (c1.chosen_path_name ++ " (Exploratory)").data =
          (c1.chosen_path_name.data ++ [' ']) ++ "(Exploratory)".data := by
        rw [String.data_append]
        simp
      rw [hdata, show ("(Exploratory)" : String).data = "(Exploratory)".data from rfl]
      exact charsHaveSub_suffix _ _
  · intro hu
    match cands with
    | [] => rfl
    | c0 :: rest =>
      have : should_explore u 0 = false := by
        simp [should_explore]
        linarith
      simp [choose_plan, this]

/-- A cheap and a dear candidate for the exploration witness. -/
def planC8a : ExecutionPlan := ⟨"Time Domain (Direct)", 100, []⟩

/-- The suboptimal second candidate for the exploration witness. -/
def planC8b : ExecutionPlan := ⟨"Frequency Domain (FFT)", 200, []⟩

/-- C8 witnessed: with rate 1 and draw 1/2 the second candidate is executed;
with rate 0 the first is. -/
theorem C8_exploration_witness :
    choose_plan [planC8a, planC8b] 1 (1/2) = (planC8b, true) ∧
    choose_plan [planC8a, planC8b] 0 (1/2) = (planC8a, false) := by
  constructor
  · exact ((C8_exploration [planC8a, planC8b] (1/2) "CONVOLUTION").1 planC8a planC8b []
      rfl (by norm_num)).1
  · have h := (C8_exploration [planC8a, planC8b] (1/2) "CONVOLUTION").2 (by norm_num)
    simpa using h

/-! ### Claim C7: which adjacent pairs are counted -/

/-- Occurrence count of a pair in a list. -/
def countPair (l : List (String × String)) (p : String × String) : ℕ :=
  (l.filter fun q => q = p).length

/-- The pairs the source actually counts: every adjacent pair of every recorded
plan that passes the `pair_counted` filter. -/
def eligible_adjacent_pairs (base : BeliefMap) (hist : List ExecutionPlan) :
    List (String × String) :=
  (hist.map fun plan =>
    (adjacent_pairs plan.steps).filter fun p => pair_counted base p.1 p.2).flatten

theorem countPair_append (l1 l2 : List (String × String)) (p : String × String) :
    countPair (l1 ++ l2) p = countPair l1 p + countPair l2 p := by
  simp [countPair, List.filter_append]

theorem countPair_cons (a : String × String) (t : List (String × String))
    (p : String × String) :
    countPair (a :: t) p = countPair t p + (if a = p then 1 else 0) := by
  by_cases h : a = p
  · simp [countPair, List.filter, h]
  · simp [countPair, List.filter, h]

/-- Folding the per-pair bump over a pair list adds exactly the occurrence
counts. -/
theorem lookA_foldl_bump (l : List (String × String))
    (m : List ((String × String) × ℕ)) (p : String × String) :
    (lookA (l.foldl bumpCount m) p).getD 0 = (lookA m p).getD 0 + countPair l p := by
  induction l generalizing m with
  | nil => simp [countPair]
  | cons a t ih =>
    rw [List.foldl_cons, ih, countPair_cons]
    by_cases h : a = p
    · subst h
      rw [bumpCount, lookA_setA_self]
      simp
      omega
    · rw [bumpCount, lookA_setA_ne _ _ _ _ (fun hc => h hc.symm)]
      simp [h]

/-- Folding the per-plan counting over the history adds exactly the eligible
occurrence counts. -/
theorem lookA_foldl_plans (hist : List ExecutionPlan) (base : BeliefMap)
    (m : List ((String × String) × ℕ)) (p : String × String) :
    (lookA (hist.foldl
        (fun m plan =>
          ((adjacent_pairs plan.steps).filter fun q => pair_counted base q.1 q.2).foldl
            bumpCount m)
        m) p).getD 0 =
      (lookA m p).getD 0 + countPair (eligible_adjacent_pairs base hist) p := by
  induction hist generalizing m with
  | nil => simp [eligible_adjacent_pairs, countPair]
  | cons plan t ih =>
    rw [List.foldl_cons, ih, lookA_foldl_bump]
    simp [eligible_adjacent_pairs, countPair_append]
    ring

/-- C7 counterexample: a history holding one plan with the adjacent pair
(FOO, BAR), neither name in `base_operational_costs`, is still counted — the
presence check only runs for names containing `JIT_` or `EXECUTE_`
(Pillar6_TaskGraphOrchestrator.cpp:85-91), refuting the claim's "only when
both operation names are present in baseCost". -/
theorem C7_counterexample :
    lookA (find_frequent_sequences []
        [⟨"p", 0, [⟨"FOO", "a", "b"⟩, ⟨"BAR", "b", "c"⟩]⟩]) ("FOO", "BAR") = some 1 ∧
    lookA ([] : BeliefMap) "FOO" = none := by
  constructor
  · simp [find_frequent_sequences, adjacent_pairs, pair_counted, containsSubstr,
      charsHaveSub, charsStartWith, bumpCount, setA, lookA]
  · rfl

/-- C7 amended: during pattern analysis a pair (s_i, s_{i+1}) is counted
exactly once per adjacent occurrence satisfying: the two names differ, and —
only when either name contains a `JIT_` or `EXECUTE_` substring — both names
are present in baseCost.  Pairs of ordinary names absent from baseCost are
still counted, and meta-step pairs whose names both carry base costs are
counted too. -/
theorem C7_amended (base : BeliefMap) (hist : List ExecutionPlan) (p : String × String) :
    (lookA (find_frequent_sequences base hist) p).getD 0 =
      countPair (eligible_adjacent_pairs base hist) p := by
  rw [find_frequent_sequences]
  by_cases hg : hist.length < 2 ∧ (hist.isEmpty ∨ (hist.headD ⟨"", 0, []⟩).steps.length < 2)
  · rw [if_pos hg]
    match hist, hg with
    | [], _ => simp [eligible_adjacent_pairs, countPair, lookA]
    | [plan], hg =>
      have hsteps : plan.steps.length < 2 := by
        rcases hg.2 with h | h
        · exact absurd h (by simp)
        · simpa using h
      have hadj : adjacent_pairs plan.steps = [] := by
        match plan, hsteps with
        | ⟨_, _, []⟩, _ => rfl
        | ⟨_, _, [s]⟩, _ => rfl
      simp [eligible_adjacent_pairs, hadj, countPair, lookA]
    | p1 :: p2 :: t, hg => exact absurd hg.1 (by simp)
  · rw [if_neg hg]
    have h := lookA_foldl_plans hist base [] p
    simpa [lookA] using h

/-! ### Claim C9: the JIT-specialized SAXPY kernel -/

/-- A dummy instantiation of the machine-level externals, used for concrete
runs whose asserted facts do not depend on them. -/
def extTrivial : Externals :=
  ⟨fun _ => 0, fun _ _ => 0, fun _ => [], fun _ => 0, fun _ => (0, 0)⟩

/-- A SAXPY task with x = [3], y = [10] and the scalar 5/2 in its parameter
bag. -/
def taskC9 : VPUTask :=
  { task_type := "SAXPY", function_pointer_nonnull := true,
    data_in_a := some [3], data_out := some [10], num_elements := 1,
    data_in_a_size_bytes := 8, alpha := 5/2 }

/-- C9 counterexample: on a task carrying a = 5/2 the JIT kernel produces
y = [15] = [10 + 1·3 + 2] — the scalar is the hard-coded 1.0 and the dense
stub adds an extra 2 to y[0] — instead of the claimed y = a·x + y = [35/2].
`fixed_a` is never read from the task (Pillar4_Cerebellum.cpp:131) and the
specializations touch only y[0] (cpu_kernels.cpp:182-196). -/
theorem C9_counterexample :
    (run_jit_kernel extTrivial (compile_saxpy_for_data taskC9) taskC9).1.data_out
      = some [15] ∧
    some [(15 : ℚ)] ≠ some [taskC9.alpha * 3 + 10] := by
  constructor
  · simp [run_jit_kernel, compile_saxpy_for_data, jit_sparsity, taskC9,
      saxpy_specialized_stub, extTrivial]
    norm_num
  · simp [taskC9]
    norm_num

/-- C9 amended: the compiled SAXPY kernel always carries the hard-coded scalar
a = 1 (the task's parameter bag is never consulted); its sparse/dense choice is
`zeroRatio > 1/2`; invoked on non-null buffers with n > 0 it changes only
y[0], to `y[0] + 1·x[0] + 1` (sparse) or `y[0] + 1·x[0] + 2` (dense), reports
`cycle_cost = 2n` and the popcount-based in/out costs. -/
theorem C9_amended (ext : Externals) (task : VPUTask) (xs ys : List ℚ)
    (hx : task.data_in_a = some xs) (hy : task.data_out = some ys)
    (hn : task.num_elements ≠ 0) :
    (compile_saxpy_for_data task).a = 1 ∧
    (compile_saxpy_for_data task).use_sparse = decide (jit_sparsity task > 1/2) ∧
    (run_jit_kernel ext (compile_saxpy_for_data task) task).2.cycle_cost
      = 2 * task.num_elements ∧
    (run_jit_kernel ext (compile_saxpy_for_data task) task).2.hw_in_cost
      = ext.ham (xs.take task.num_elements) + ext.ham (ys.take task.num_elements) ∧
    (∀ x0 xt y0 yt, xs = x0 :: xt → ys = y0 :: yt →
      (run_jit_kernel ext (compile_saxpy_for_data task) task).1.data_out =
        some ((y0 + 1 * x0 +
            (if (compile_saxpy_for_data task).use_sparse then 1 else 2)) ::
          (yt.take (task.num_elements - 1) ++ ys.drop task.num_elements))) := by
  obtain ⟨m, hm⟩ := Nat.exists_eq_succ_of_ne_zero hn
  refine ⟨rfl, by simp [compile_saxpy_for_data], ?_, ?_, ?_⟩
  · simp [run_jit_kernel, hx, hy, hn]
  · simp [run_jit_kernel, hx, hy, hn]
  · rintro x0 xt y0 yt rfl rfl
    simp [run_jit_kernel, hx, hy, hn, hm, saxpy_specialized_stub, List.take_succ_cons,
      compile_saxpy_for_data]

/-- C9 amended, witnessed on the concrete task: y becomes [15]. -/
theorem C9_amended_witness :
    (run_jit_kernel extTrivial (compile_saxpy_for_data taskC9) taskC9).1.data_out
      = some [(10 : ℚ) + 1 * 3 +
        (if (compile_saxpy_for_data taskC9).use_sparse then 1 else 2)] := by
  have h := (C9_amended extTrivial taskC9 [3] [10] rfl rfl (by decide)).2.2.2.2
    3 [] 10 [] rfl rfl
  simpa [taskC9] using h

/-! ### Claim C10: the staged JIT kernel is cleared on entry -/

/-- Running the step loop with nothing staged over registry-resident,
non-meta steps keeps nothing staged and fails with the JIT-precondition error
at the first EXECUTE_JIT_SAXPY. -/
theorem cerebellum_run_jit_error (ext : Externals) (lib : KernelLibrary)
    (pre : List ExecutionStep) (bi bo : String) (post : List ExecutionStep) :
    ∀ (task : VPUTask) (acc : ℕ × ℕ × ℕ),
    (∀ s ∈ pre, s.operation_name ≠ "JIT_COMPILE_SAXPY" ∧
      s.operation_name ≠ "EXECUTE_JIT_SAXPY" ∧ (lookA lib s.operation_name).isSome) →
    cerebellum_run ext lib (pre ++ ⟨"EXECUTE_JIT_SAXPY", bi, bo⟩ :: post) task none acc =
      (none, Except.error "EXECUTE_JIT_SAXPY called without a compiled JIT kernel.") := by
  induction pre with
  | nil =>
    intro task acc _
    simp [cerebellum_run, cerebellum_step]
  | cons s t ih =>
    intro task acc hpre
    obtain ⟨h1, h2, h3⟩ := hpre s (List.mem_cons_self s t)
    obtain ⟨f, hf⟩ := Option.isSome_iff_exists.mp h3
    rw [List.cons_append, cerebellum_run]
    rw [show cerebellum_step ext lib task none s.operation_name =
        Except.ok ((f task).1, none, (f task).2) by
      rw [cerebellum_step, if_neg h1, if_neg h2, hf]]
    exact ih _ _ (fun q hq => hpre q (List.mem_cons_of_mem s hq))

/-- C10: `Cerebellum::execute` clears the staged JIT kernel before the step
loop (Pillar4_Cerebellum.cpp:21), so a plan whose first EXECUTE_JIT_SAXPY step
has no JIT_COMPILE_SAXPY before it in that same plan — all earlier steps being
ordinary registry-resident operations — fails with the JIT-precondition error,
whatever kernel was staged by earlier executions. -/
theorem C10_jit_cleared (ext : Externals) (lib : KernelLibrary) (task : VPUTask)
    (staged_member : Option JITStagedKernel) (plan : ExecutionPlan)
    (pre : List ExecutionStep) (bi bo : String) (post : List ExecutionStep)
    (hsteps : plan.steps = pre ++ ⟨"EXECUTE_JIT_SAXPY", bi, bo⟩ :: post)
    (hpre : ∀ s ∈ pre, s.operation_name ≠ "JIT_COMPILE_SAXPY" ∧
      s.operation_name ≠ "EXECUTE_JIT_SAXPY" ∧ (lookA lib s.operation_name).isSome) :
    cerebellum_execute ext lib plan task staged_member =
      (none, Except.error "EXECUTE_JIT_SAXPY called without a compiled JIT kernel.") := by
  rw [cerebellum_execute, hsteps, cerebellum_run_jit_error ext lib pre bi bo post task
    (0, 0, 0) hpre]

/-- C10 witnessed: even with a kernel staged from an earlier execution, a plan
consisting of the bare EXECUTE_JIT_SAXPY step fails with the precondition
error. -/
theorem C10_jit_cleared_witness :
    cerebellum_execute extTrivial [] ⟨"p", 0, [⟨"EXECUTE_JIT_SAXPY", "input", "output"⟩]⟩
      taskC9 (some ⟨true, 1⟩) =
      (none, Except.error "EXECUTE_JIT_SAXPY called without a compiled JIT kernel.") :=
  C10_jit_cleared extTrivial [] taskC9 (some ⟨true, 1⟩)
    ⟨"p", 0, [⟨"EXECUTE_JIT_SAXPY", "input", "output"⟩]⟩ [] "input" "output" [] rfl
    (fun s hs => absurd hs (List.not_mem_nil s))

/-! ### Claim C4: failure handling in the per-task loop -/

/-- A SAXPY task with a NULL input buffer, a valid output buffer of ten tens
and ten elements: it passes Pillar 1 validation because the input-pointer
check there is commented out. -/
def taskC4 : VPUTask :=
  { task_type := "SAXPY", function_pointer_nonnull := true,
    data_in_a := none, data_out := some (List.replicate 10 10),
    num_elements := 10 }

/-- The profile the Cortex computes for `taskC4`: zero spectral features and
full sparsity (null input), dummy IoT readings. -/
def profC4 : DataProfile :=
  { amplitude_flux := 0, frequency_flux := 0, entropy_flux := 0, hamming_weight := 0,
    sparsity_ratio := 1, power_draw_watts := 75.5, temperature_celsius := 65.2,
    network_latency_ms := 15.3, network_bandwidth_mbps := 980, io_throughput_mbps := 250,
    data_quality_score := 0.95 }

/-- The cheaper SAXPY candidate for `taskC4`: 100·(20/19). -/
def planStdC4 : ExecutionPlan :=
  ⟨"Standard SAXPY", 2000/19, [⟨"SAXPY_STANDARD", "input", "output"⟩]⟩

/-- The dearer JIT candidate for `taskC4`: 1070·(20/19). -/
def planJitC4 : ExecutionPlan :=
  ⟨"JIT Compiled SAXPY", 21400/19,
   [⟨"JIT_COMPILE_SAXPY", "input_metadata", "compiled_kernel_id"⟩,
    ⟨"EXECUTE_JIT_SAXPY", "input", "output"⟩]⟩

theorem C4_profile_eval : cortex_analyze extTrivial none taskC4 = profC4 := by
  simp [cortex_analyze, profileOmni, taskC4, profC4, extTrivial]

theorem C4_candidates_eval :
    determine_optimal_path initial_hw false taskC4.task_type
      (cortex_analyze extTrivial none taskC4) = Except.ok [planStdC4, planJitC4] := by
  rw [C4_profile_eval, show taskC4.task_type = "SAXPY" from rfl]
  simp [determine_optimal_path, generate_candidate_paths, simulate_flux_cost, step_flux,
    dynamic_cost, env_cost_multiplier, initial_hw, lookA, getQ, profC4,
    containsSubstr, charsHaveSub, charsStartWith]
  norm_num [sortPlans, insertPlan, planStdC4, planJitC4]

theorem C4_choose_eval :
    choose_plan [planStdC4, planJitC4] (0.1) (1/2) = (planStdC4, false) := by
  simp only [choose_plan, should_explore]
  norm_num

theorem C4_cerebellum_eval :
    cerebellum_execute extTrivial (initial_registry extTrivial) planStdC4 taskC4 none =
      (none, Except.ok (taskC4, ⟨0, 0, 0, 0, 0⟩)) := by
  simp [cerebellum_execute, cerebellum_run, cerebellum_step, planStdC4, initial_registry,
    lookA, saxpy_standard_kernel, taskC4]

theorem C4_ctx_eval :
    build_learning_context planStdC4 false taskC4.task_type =
      ⟨"Standard SAXPY", "", "SAXPY_STANDARD", "lambda_SAXPY_generic"⟩ := by
  simp [build_learning_context, planStdC4, taskC4, containsSubstr, charsHaveSub,
    charsStartWith]

/-- The belief store after learning from the `taskC4` run: the SAXPY_STANDARD
base cost is pulled from 100 to 95 and λ_SAXPY_generic from 0.5 to 0.45. -/
def hwC4 : HardwareProfile :=
  { base_operational_costs :=
      [("CONV_DIRECT", 200), ("ELEMENT_WISE_MULTIPLY", 50), ("GEMM_NAIVE", 500),
       ("GEMM_FLUX_ADAPTIVE", 450), ("SAXPY_STANDARD", 95), ("EXECUTE_JIT_SAXPY", 70)]
    transform_costs :=
      [("FFT_FORWARD", 300), ("FFT_INVERSE", 280), ("JIT_COMPILE_SAXPY", 1000)]
    flux_sensitivities :=
      [("lambda_Conv_Amp", 1), ("lambda_Conv_Freq", 0.8), ("lambda_Sparsity", 150),
       ("lambda_SAXPY_generic", 0.45), ("SAXPY_STANDARD_lambda_hw_combined", 0.1),
       ("EXECUTE_JIT_SAXPY_lambda_hw_combined", 0.05),
       ("GEMM_NAIVE_lambda_hw_combined", 0.2),
       ("GEMM_FLUX_ADAPTIVE_lambda_hw_combined", 0.15),
       ("CONV_DIRECT_lambda_hw_combined", 0.25)] }

theorem C4_learn_eval :
    learn_from_feedback (15/100) (1/10) (5/100) initial_hw
      ⟨"Standard SAXPY", "", "SAXPY_STANDARD", "lambda_SAXPY_generic"⟩
      planStdC4.predicted_holistic_flux ⟨0, 0, 0, 0, 0⟩ = hwC4 := by
  simp [learn_from_feedback, planStdC4, initial_hw, hwC4, lookA, getQ, setA]
  norm_num

theorem C4_record_eval :
    record_executed_plan (initial_registry extTrivial) hwC4 [] 0 10 5 planStdC4 =
      (initial_registry extTrivial, hwC4, [planStdC4], 1) := by
  simp [record_executed_plan]

/-- C4 counterexample: the null-input-buffer SAXPY task `taskC4` is NOT
aborted — Pillar 1 only validates the output pointer, the SAXPY_STANDARD
kernel returns a zero report on the null input, and the loop then runs to
completion: the HardwareProfile IS updated (SAXPY_STANDARD base cost 100 → 95)
and the plan IS recorded in the history.  This refutes the claim's
null-task-buffer clause. -/
theorem C4_counterexample :
    taskC4.data_in_a = none ∧ taskC4.num_elements = 10 ∧
    execute_task extTrivial (vpu_initial_state extTrivial) taskC4 (1/2) =
      ({ vpu_initial_state extTrivial with hw := hwC4, plan_history := [planStdC4],
                                           task_execution_counter := 1,
                                           last_perf := ⟨0, 0, 0, 0, 0⟩ },
       Except.ok taskC4) ∧
    lookA hwC4.base_operational_costs "SAXPY_STANDARD" = some 95 ∧
    lookA initial_hw.base_operational_costs "SAXPY_STANDARD" = some 100 := by
  refine ⟨rfl, rfl, ?_, by simp [hwC4, lookA], by simp [initial_hw, lookA]⟩
  have hsubmit : submit_task taskC4 = true := by decide
  simp only [execute_task, vpu_initial_state, hsubmit, Bool.not_true, Bool.false_eq_true,
    if_false, C4_candidates_eval, List.isEmpty_cons, C4_choose_eval, C4_cerebellum_eval,
    C4_ctx_eval, C4_learn_eval, C4_record_eval]

/-- C4 amended: whenever the per-task loop aborts — validation rejection,
no candidate plan, a missing (non-meta) kernel, or EXECUTE_JIT_SAXPY with
nothing staged — the HardwareProfile and the plan history are unchanged for
that task; only a task that runs to completion updates them.  (A null OUTPUT
buffer with elements is caught by validation; a null INPUT buffer does not
abort at all, see the counterexample.) -/
theorem C4_amended (ext : Externals) (S : VPUState) (task : VPUTask) (u : ℚ)
    (e : String) (h : (execute_task ext S task u).2 = Except.error e) :
    (execute_task ext S task u).1.hw = S.hw ∧
    (execute_task ext S task u).1.plan_history = S.plan_history := by
  revert h
  unfold execute_task
  dsimp only
  split
  · intro _
    exact ⟨rfl, rfl⟩
  · split
    · intro _
      exact ⟨rfl, rfl⟩
    · split
      · intro _
        exact ⟨rfl, rfl⟩
      · split
        · intro _
          exact ⟨rfl, rfl⟩
        · intro h
          simp at h

/-- A GEMM task with a null input buffer: validation passes, the cheaper
Flux-Adaptive candidate wins, and its kernel is absent from the registry. -/
def taskC4g : VPUTask :=
  { task_type := "GEMM", function_pointer_nonnull := true,
    data_in_a := none, data_in_b := none, data_out := some [0], num_elements := 1 }

/-- The Flux-Adaptive GEMM candidate for `taskC4g`: 450·(20/19). -/
def planFaC4 : ExecutionPlan :=
  ⟨"Flux-Adaptive GEMM", 9000/19, [⟨"GEMM_FLUX_ADAPTIVE", "input", "output"⟩]⟩

/-- The Naive GEMM candidate for `taskC4g`: 500·(20/19). -/
def planNaiveC4 : ExecutionPlan :=
  ⟨"Naive GEMM", 10000/19, [⟨"GEMM_NAIVE", "input", "output"⟩]⟩

theorem C4g_candidates_eval :
    determine_optimal_path initial_hw false taskC4g.task_type
      (cortex_analyze extTrivial none taskC4g) = Except.ok [planFaC4, planNaiveC4] := by
  rw [show cortex_analyze extTrivial none taskC4g = profC4 by
      simp [cortex_analyze, profileOmni, taskC4g, profC4, extTrivial],
    show taskC4g.task_type = "GEMM" from rfl]
  simp [determine_optimal_path, generate_candidate_paths, simulate_flux_cost, step_flux,
    dynamic_cost, env_cost_multiplier, initial_hw, lookA, getQ, profC4,
    containsSubstr, charsHaveSub, charsStartWith]
  norm_num [sortPlans, insertPlan, planFaC4, planNaiveC4]

theorem C4g_choose_eval :
    choose_plan [planFaC4, planNaiveC4] (0.1) (1/2) = (planFaC4, false) := by
  simp only [choose_plan, should_explore]
  norm_num

theorem C4g_cerebellum_eval :
    cerebellum_execute extTrivial (initial_registry extTrivial) planFaC4 taskC4g none =
      (none, Except.error "Kernel not found in library: GEMM_FLUX_ADAPTIVE") := by
  simp [cerebellum_execute, cerebellum_run, cerebellum_step, planFaC4,
    initial_registry, lookA]

theorem C4g_error_eval :
    (execute_task extTrivial (vpu_initial_state extTrivial) taskC4g (1/2)).2 =
      Except.error "Kernel not found in library: GEMM_FLUX_ADAPTIVE" := by
  have hsubmit : submit_task taskC4g = true := by decide
  simp only [execute_task, vpu_initial_state, hsubmit, Bool.not_true, Bool.false_eq_true,
    if_false, C4g_candidates_eval, List.isEmpty_cons, C4g_choose_eval, C4g_cerebellum_eval]

/-- C4 amended, witnessed: the GEMM task aborts with the kernel-missing error
for GEMM_FLUX_ADAPTIVE, and the beliefs and history are untouched. -/
theorem C4_amended_witness :
    (execute_task extTrivial (vpu_initial_state extTrivial) taskC4g (1/2)).1.hw =
      (vpu_initial_state extTrivial).hw ∧
    (execute_task extTrivial (vpu_initial_state extTrivial) taskC4g (1/2)).1.plan_history =
      (vpu_initial_state extTrivial).plan_history :=
  C4_amended extTrivial (vpu_initial_state extTrivial) taskC4g (1/2)
    "Kernel not found in library: GEMM_FLUX_ADAPTIVE" C4g_error_eval

end VPU
